import Mathlib

/-!
Verification of the mock-statistics generation logic of the sports-analytics
backend (src/Backend/api.py): position-conditioned stat synthesis
(`generate_mock_player_stats`), performance-trend generation
(`generate_performance_trends`), heat-map generation (`generate_heat_map_data`)
and the process-lifetime memo cache (`MOCK_PLAYERS_DB`).

Randomness is modelled by explicit draw streams: each call site of Python's
`random.randint(lo, hi)` consumes one natural number from an integer stream,
mapped into `[lo, hi]` by `lo + v % (hi + 1 - lo)` (every value of the
inclusive range is attainable and no value outside it is ever produced, which
matches the guarantee of `random.randint`); each call site of
`random.uniform(a, b)` consumes one rational from a second stream, mapped into
`[a, b)` by `a + (b - a) * Int.fract q` (matching the mathematical value
`a + (b - a) * random()` computed by `random.uniform`).  Call sites are
indexed in program order.
-/

/-- A random source: a stream of raw integer draws (one per `random.randint`
call site) and a stream of raw rational draws (one per `random.uniform`
call site). -/
structure Rng where
  ints : ℕ → ℕ
  rats : ℕ → ℚ

/-- Model of Python `random.randint(lo, hi)` applied to one raw draw `v`:
an integer in the inclusive range `[lo, hi]`. -/
def randint (lo hi : ℕ) (v : ℕ) : ℕ :=
  lo + v % (hi + 1 - lo)

/-- Model of Python `random.uniform(a, b)` applied to one raw draw `q`:
the value `a + (b - a) * u` with `u = Int.fract q ∈ [0, 1)`. -/
def uniformQ (a b : ℚ) (q : ℚ) : ℚ :=
  a + (b - a) * Int.fract q

theorem le_randint (lo hi v : ℕ) : lo ≤ randint lo hi v :=
  Nat.le_add_right lo _

theorem randint_le (lo hi v : ℕ) (h : lo ≤ hi) : randint lo hi v ≤ hi := by
  have hpos : 0 < hi + 1 - lo := by omega
  have := Nat.mod_lt v hpos
  unfold randint
  omega

theorem le_uniformQ (a b q : ℚ) (h : a ≤ b) : a ≤ uniformQ a b q := by
  unfold uniformQ
  nlinarith [Int.fract_nonneg q]

theorem uniformQ_le (a b q : ℚ) (h : a ≤ b) : uniformQ a b q ≤ b := by
  unfold uniformQ
  nlinarith [Int.fract_nonneg q, Int.fract_lt_one q]

theorem uniformQ_lt (a b q : ℚ) (h : a < b) : uniformQ a b q < b := by
  unfold uniformQ
  nlinarith [Int.fract_nonneg q, Int.fract_lt_one q]

/-- The statistics record built by `generate_mock_player_stats`.  Integer
metrics are `ℕ`, continuous metrics are `ℚ`; the two goalkeeper-only keys
(`saves`, `goals_conceded`) are `Option ℕ` (`none` models a key absent from
the Python dict). -/
structure StatisticsRecord where
  appearances : ℕ
  minutes_played : ℕ
  goals : ℕ
  assists : ℕ
  yellow_cards : ℕ
  red_cards : ℕ
  passes_completed : ℕ
  pass_accuracy : ℚ
  tackles : ℕ
  interceptions : ℕ
  aerial_duels_won : ℕ
  shots : ℕ
  shots_on_target : ℕ
  dribbles_completed : ℕ
  fouls_committed : ℕ
  clean_sheets : ℕ
  saves : Option ℕ
  goals_conceded : Option ℕ
  shot_accuracy : ℚ
  goals_per_90 : ℚ
  assists_per_90 : ℚ
  deriving Repr, DecidableEq

/-- The goalkeeper-class labels tested by `generate_mock_player_stats`. -/
def gkLabels : List String := ["Goalkeeper", "Goalie"]

/-- The defender-class labels tested by `generate_mock_player_stats`. -/
def defenderLabels : List String := ["Defender", "Centre-Back", "Left-Back", "Right-Back"]

/-- The midfielder-class labels tested by `generate_mock_player_stats`. -/
def midfielderLabels : List String :=
  ["Midfielder", "Defensive Midfield", "Central Midfield", "Attacking Midfield"]

/-- The winger-class labels tested by `generate_mock_player_stats`. -/
def wingerLabels : List String := ["Winger", "Left Winger", "Right Winger"]

/-- The forward/striker-class labels tested by `generate_mock_player_stats`. -/
def forwardLabels : List String := ["Forward", "Centre-Forward", "Striker"]

/-- Embedding of `generate_mock_player_stats(position)` (api.py lines
397-478): sample the base stats, apply the position-specific override
block, then compute the derived stats from the post-override values. -/
def generate_mock_player_stats (position : String) (g : Rng) : StatisticsRecord :=
  let base : StatisticsRecord :=
    { appearances := randint 15 35 (g.ints 0)
      minutes_played := randint 800 2500 (g.ints 1)
      goals := 0
      assists := 0
      yellow_cards := randint 0 8 (g.ints 2)
      red_cards := randint 0 1 (g.ints 3)
      passes_completed := randint 200 1500 (g.ints 4)
      pass_accuracy := uniformQ 70 95 (g.rats 0)
      tackles := randint 10 80 (g.ints 5)
      interceptions := randint 5 60 (g.ints 6)
      aerial_duels_won := randint 10 100 (g.ints 7)
      shots := randint 5 80 (g.ints 8)
      shots_on_target := randint 2 40 (g.ints 9)
      dribbles_completed := randint 5 50 (g.ints 10)
      fouls_committed := randint 5 40 (g.ints 11)
      clean_sheets := 0
      saves := none
      goals_conceded := none
      shot_accuracy := 0
      goals_per_90 := 0
      assists_per_90 := 0 }
  let adjusted : StatisticsRecord :=
    if position ∈ gkLabels then
      { base with
        goals := 0
        assists := randint 0 2 (g.ints 12)
        saves := some (randint 40 120 (g.ints 13))
        clean_sheets := randint 5 15 (g.ints 14)
        goals_conceded := some (randint 15 45 (g.ints 15))
        pass_accuracy := uniformQ 40 70 (g.rats 1) }
    else if position ∈ defenderLabels then
      { base with
        goals := randint 0 5 (g.ints 12)
        assists := randint 0 8 (g.ints 13)
        tackles := randint 30 80 (g.ints 14)
        interceptions := randint 20 60 (g.ints 15)
        aerial_duels_won := randint 30 100 (g.ints 16)
        clean_sheets := randint 8 18 (g.ints 17) }
    else if position ∈ midfielderLabels then
      { base with
        goals := randint 2 12 (g.ints 12)
        assists := randint 3 15 (g.ints 13)
        passes_completed := randint 800 1500 (g.ints 14)
        pass_accuracy := uniformQ 80 95 (g.rats 1)
        dribbles_completed := randint 20 50 (g.ints 15) }
    else if position ∈ wingerLabels then
      { base with
        goals := randint 5 15 (g.ints 12)
        assists := randint 8 20 (g.ints 13)
        dribbles_completed := randint 30 60 (g.ints 14)
        shots := randint 30 80 (g.ints 15)
        shots_on_target := randint 15 40 (g.ints 16) }
    else if position ∈ forwardLabels then
      { base with
        goals := randint 8 25 (g.ints 12)
        assists := randint 3 12 (g.ints 13)
        shots := randint 50 120 (g.ints 14)
        shots_on_target := randint 25 60 (g.ints 15)
        aerial_duels_won := randint 40 100 (g.ints 16) }
    else base
  let withShotAcc : StatisticsRecord :=
    if adjusted.shots > 0 then
      { adjusted with
        shot_accuracy := ((adjusted.shots_on_target : ℚ) / (adjusted.shots : ℚ)) * 100 }
    else
      { adjusted with shot_accuracy := 0 }
  if withShotAcc.minutes_played > 0 then
    { withShotAcc with
      goals_per_90 := ((withShotAcc.goals : ℚ) / (withShotAcc.minutes_played : ℚ)) * 90
      assists_per_90 := ((withShotAcc.assists : ℚ) / (withShotAcc.minutes_played : ℚ)) * 90 }
  else
    { withShotAcc with
      goals_per_90 := 0
      assists_per_90 := 0 }

/-- A fixed all-zero random source, used to instantiate witnesses. -/
def rng0 : Rng :=
  { ints := fun _ => 0
    rats := fun _ => 0 }

/-- The trend series built by `generate_performance_trends`: five aligned
sequences, one entry per synthetic past match (`matchDates` models the
"matches" key, a keyword in Lean).  Match dates are day numbers
relative to an arbitrary epoch (`now` is passed in as the current day
number, standing for `datetime.now()`). -/
structure TrendSeries where
  matchDates : List ℤ
  goals : List ℕ
  assists : List ℕ
  rating : List ℚ
  minutes : List ℕ
  deriving Repr, DecidableEq

/-- Model of Python `round(x, 1)`: round to one decimal place.  (Python uses
round-half-even on floats; exact ties are the only inputs where the two
rounding rules differ, and no bound proved here depends on tie direction.) -/
def roundTenth (q : ℚ) : ℚ :=
  (round (q * 10) : ℤ) / 10

/-- The attacking labels tested by `generate_performance_trends`. -/
def trendAttackLabels : List String := ["Forward", "Striker", "Winger"]

/-- The midfielder labels tested by `generate_performance_trends`. -/
def trendMidLabels : List String := ["Midfielder"]

/-- Embedding of `generate_performance_trends(position)` (api.py lines
480-511): for `i = 0..9`, the match date is `now - (9-i)*7` days, per-match
goals/assists are drawn from a position-conditioned range, the rating is
`round(uniform(6.0, 9.5), 1)` and the minutes are `randint(60, 90)`.
Each loop iteration consumes three integer draws (goals, assists, minutes)
and one uniform draw (rating), indexed in program order. -/
def generate_performance_trends (position : String) (now : ℤ) (g : Rng) : TrendSeries :=
  { matchDates := (List.range 10).map (fun i : ℕ => now - (9 - (i : ℤ)) * 7)
    goals := (List.range 10).map (fun i =>
      if position ∈ trendAttackLabels then randint 0 2 (g.ints (3 * i))
      else if position ∈ trendMidLabels then randint 0 1 (g.ints (3 * i))
      else randint 0 1 (g.ints (3 * i)))
    assists := (List.range 10).map (fun i =>
      if position ∈ trendAttackLabels then randint 0 1 (g.ints (3 * i + 1))
      else if position ∈ trendMidLabels then randint 0 2 (g.ints (3 * i + 1))
      else randint 0 1 (g.ints (3 * i + 1)))
    rating := (List.range 10).map (fun i => roundTenth (uniformQ 6 (95 / 10) (g.rats i)))
    minutes := (List.range 10).map (fun i => randint 60 90 (g.ints (3 * i + 2))) }

/-- The heat map built by `generate_heat_map_data`: the grid plus the
reported maximum and minimum cell values. -/
structure HeatMap where
  grid : List (List ℕ)
  max_value : ℕ
  min_value : ℕ
  deriving Repr, DecidableEq

/-- Python `max` over a nonempty list (`max(row)`); `0` on `[]`, a case the
generator never produces (Python would raise there). -/
def listMax : List ℕ → ℕ
  | [] => 0
  | x :: xs => xs.foldl max x

/-- Python `min` over a nonempty list (`min(row)`); `0` on `[]`, a case the
generator never produces (Python would raise there). -/
def listMin : List ℕ → ℕ
  | [] => 0
  | x :: xs => xs.foldl min x

/-- One cell of the heat-map grid: api.py lines 519-560.  Row `i`, column
`j`; the branch structure and ranges follow the source (note the
heat-map branches test the short lists `["Defender"]`, `["Midfielder"]`
and `["Forward", "Striker"]`, not the longer lists used by
`generate_mock_player_stats`). -/
def heatCell (position : String) (g : Rng) (i j : ℕ) : ℕ :=
  if position ∈ gkLabels then
    if j < 3 then randint 20 80 (g.ints (10 * i + j))
    else randint 0 10 (g.ints (10 * i + j))
  else if position ∈ ["Defender"] then
    if j < 5 then randint 30 90 (g.ints (10 * i + j))
    else randint 5 40 (g.ints (10 * i + j))
  else if position ∈ ["Midfielder"] then
    if 2 ≤ j ∧ j ≤ 7 then randint 40 100 (g.ints (10 * i + j))
    else randint 10 50 (g.ints (10 * i + j))
  else if position ∈ ["Forward", "Striker"] then
    if 5 ≤ j then randint 50 100 (g.ints (10 * i + j))
    else randint 10 60 (g.ints (10 * i + j))
  else
    randint 10 80 (g.ints (10 * i + j))

/-- Embedding of `generate_heat_map_data(position)` (api.py lines 513-566):
a 10×10 grid of position-conditioned draws, plus
`max(max(row) for row in heat_map)` and `min(min(row) for row in heat_map)`. -/
def generate_heat_map_data (position : String) (g : Rng) : HeatMap :=
  let grid_size := 10
  let heat_map := (List.range grid_size).map (fun i =>
    (List.range grid_size).map (fun j => heatCell position g i j))
  { grid := heat_map
    max_value := listMax (heat_map.map listMax)
    min_value := listMin (heat_map.map listMin) }

/-- The memo cache `MOCK_PLAYERS_DB`: a mapping from player id to the
statistics record stored for it (`none` models a key absent from the
Python dict). -/
def Cache : Type := ℕ → Option StatisticsRecord

/-- Embedding of the get-or-create idiom used at api.py lines 171-173 and
232-233: `if player_id not in MOCK_PLAYERS_DB: MOCK_PLAYERS_DB[player_id] =
generate_mock_player_stats(position)` followed by a read of
`MOCK_PLAYERS_DB[player_id]`.  Returns the record served for the request
and the cache afterwards. -/
def get_or_create (db : Cache) (player_id : ℕ) (position : String) (g : Rng) :
    StatisticsRecord × Cache :=
  match db player_id with
  | some r => (r, db)
  | none =>
      let r := generate_mock_player_stats position g
      (r, fun q => if q = player_id then some r else db q)

/-- Run a sequence of later get-or-create requests (arbitrary player ids,
positions and random draws) against the cache, keeping only the final
cache state. -/
def runRequests (db : Cache) : List (ℕ × String × Rng) → Cache
  | [] => db
  | (pid, pos, g) :: rest => runRequests (get_or_create db pid pos g).2 rest

/-!  Characterization lemmas: for each branch of the position dispatch,
`generate_mock_player_stats` equals an explicit record of draws.  The two
derived-stat fallback branches never fire because `shots` is drawn from
`[5, 80]` (or overridden from `[30, 80]` / `[50, 120]`) and
`minutes_played` from `[800, 2500]`. -/

theorem gen_eq_of_gk (pos : String) (g : Rng) (h : pos ∈ gkLabels) :
    generate_mock_player_stats pos g =
      { appearances := randint 15 35 (g.ints 0)
        minutes_played := randint 800 2500 (g.ints 1)
        goals := 0
        assists := randint 0 2 (g.ints 12)
        yellow_cards := randint 0 8 (g.ints 2)
        red_cards := randint 0 1 (g.ints 3)
        passes_completed := randint 200 1500 (g.ints 4)
        pass_accuracy := uniformQ 40 70 (g.rats 1)
        tackles := randint 10 80 (g.ints 5)
        interceptions := randint 5 60 (g.ints 6)
        aerial_duels_won := randint 10 100 (g.ints 7)
        shots := randint 5 80 (g.ints 8)
        shots_on_target := randint 2 40 (g.ints 9)
        dribbles_completed := randint 5 50 (g.ints 10)
        fouls_committed := randint 5 40 (g.ints 11)
        clean_sheets := randint 5 15 (g.ints 14)
        saves := some (randint 40 120 (g.ints 13))
        goals_conceded := some (randint 15 45 (g.ints 15))
        shot_accuracy := ((randint 2 40 (g.ints 9) : ℚ) / (randint 5 80 (g.ints 8) : ℚ)) * 100
        goals_per_90 := 0
        assists_per_90 :=
          ((randint 0 2 (g.ints 12) : ℚ) / (randint 800 2500 (g.ints 1) : ℚ)) * 90 } := by
  have h8 := le_randint 5 80 (g.ints 8)
  have hm := le_randint 800 2500 (g.ints 1)
  simp only [generate_mock_player_stats, if_pos h]
  split_ifs <;> simp_all

theorem gen_eq_of_defender (pos : String) (g : Rng)
    (h1 : pos ∉ gkLabels) (h2 : pos ∈ defenderLabels) :
    generate_mock_player_stats pos g =
      { appearances := randint 15 35 (g.ints 0)
        minutes_played := randint 800 2500 (g.ints 1)
        goals := randint 0 5 (g.ints 12)
        assists := randint 0 8 (g.ints 13)
        yellow_cards := randint 0 8 (g.ints 2)
        red_cards := randint 0 1 (g.ints 3)
        passes_completed := randint 200 1500 (g.ints 4)
        pass_accuracy := uniformQ 70 95 (g.rats 0)
        tackles := randint 30 80 (g.ints 14)
        interceptions := randint 20 60 (g.ints 15)
        aerial_duels_won := randint 30 100 (g.ints 16)
        shots := randint 5 80 (g.ints 8)
        shots_on_target := randint 2 40 (g.ints 9)
        dribbles_completed := randint 5 50 (g.ints 10)
        fouls_committed := randint 5 40 (g.ints 11)
        clean_sheets := randint 8 18 (g.ints 17)
        saves := none
        goals_conceded := none
        shot_accuracy := ((randint 2 40 (g.ints 9) : ℚ) / (randint 5 80 (g.ints 8) : ℚ)) * 100
        goals_per_90 :=
          ((randint 0 5 (g.ints 12) : ℚ) / (randint 800 2500 (g.ints 1) : ℚ)) * 90
        assists_per_90 :=
          ((randint 0 8 (g.ints 13) : ℚ) / (randint 800 2500 (g.ints 1) : ℚ)) * 90 } := by
  have h8 := le_randint 5 80 (g.ints 8)
  have hm := le_randint 800 2500 (g.ints 1)
  simp only [generate_mock_player_stats, if_neg h1, if_pos h2]
  split_ifs <;> simp_all

theorem gen_eq_of_midfielder (pos : String) (g : Rng)
    (h1 : pos ∉ gkLabels) (h2 : pos ∉ defenderLabels) (h3 : pos ∈ midfielderLabels) :
    generate_mock_player_stats pos g =
      { appearances := randint 15 35 (g.ints 0)
        minutes_played := randint 800 2500 (g.ints 1)
        goals := randint 2 12 (g.ints 12)
        assists := randint 3 15 (g.ints 13)
        yellow_cards := randint 0 8 (g.ints 2)
        red_cards := randint 0 1 (g.ints 3)
        passes_completed := randint 800 1500 (g.ints 14)
        pass_accuracy := uniformQ 80 95 (g.rats 1)
        tackles := randint 10 80 (g.ints 5)
        interceptions := randint 5 60 (g.ints 6)
        aerial_duels_won := randint 10 100 (g.ints 7)
        shots := randint 5 80 (g.ints 8)
        shots_on_target := randint 2 40 (g.ints 9)
        dribbles_completed := randint 20 50 (g.ints 15)
        fouls_committed := randint 5 40 (g.ints 11)
        clean_sheets := 0
        saves := none
        goals_conceded := none
        shot_accuracy := ((randint 2 40 (g.ints 9) : ℚ) / (randint 5 80 (g.ints 8) : ℚ)) * 100
        goals_per_90 :=
          ((randint 2 12 (g.ints 12) : ℚ) / (randint 800 2500 (g.ints 1) : ℚ)) * 90
        assists_per_90 :=
          ((randint 3 15 (g.ints 13) : ℚ) / (randint 800 2500 (g.ints 1) : ℚ)) * 90 } := by
  have h8 := le_randint 5 80 (g.ints 8)
  have hm := le_randint 800 2500 (g.ints 1)
  simp only [generate_mock_player_stats, if_neg h1, if_neg h2, if_pos h3]
  split_ifs <;> simp_all

theorem gen_eq_of_winger (pos : String) (g : Rng)
    (h1 : pos ∉ gkLabels) (h2 : pos ∉ defenderLabels) (h3 : pos ∉ midfielderLabels)
    (h4 : pos ∈ wingerLabels) :
    generate_mock_player_stats pos g =
      { appearances := randint 15 35 (g.ints 0)
        minutes_played := randint 800 2500 (g.ints 1)
        goals := randint 5 15 (g.ints 12)
        assists := randint 8 20 (g.ints 13)
        yellow_cards := randint 0 8 (g.ints 2)
        red_cards := randint 0 1 (g.ints 3)
        passes_completed := randint 200 1500 (g.ints 4)
        pass_accuracy := uniformQ 70 95 (g.rats 0)
        tackles := randint 10 80 (g.ints 5)
        interceptions := randint 5 60 (g.ints 6)
        aerial_duels_won := randint 10 100 (g.ints 7)
        shots := randint 30 80 (g.ints 15)
        shots_on_target := randint 15 40 (g.ints 16)
        dribbles_completed := randint 30 60 (g.ints 14)
        fouls_committed := randint 5 40 (g.ints 11)
        clean_sheets := 0
        saves := none
        goals_conceded := none
        shot_accuracy := ((randint 15 40 (g.ints 16) : ℚ) / (randint 30 80 (g.ints 15) : ℚ)) * 100
        goals_per_90 :=
          ((randint 5 15 (g.ints 12) : ℚ) / (randint 800 2500 (g.ints 1) : ℚ)) * 90
        assists_per_90 :=
          ((randint 8 20 (g.ints 13) : ℚ) / (randint 800 2500 (g.ints 1) : ℚ)) * 90 } := by
  have h8 := le_randint 30 80 (g.ints 15)
  have hm := le_randint 800 2500 (g.ints 1)
  simp only [generate_mock_player_stats, if_neg h1, if_neg h2, if_neg h3, if_pos h4]
  split_ifs <;> simp_all

theorem gen_eq_of_forward (pos : String) (g : Rng)
    (h1 : pos ∉ gkLabels) (h2 : pos ∉ defenderLabels) (h3 : pos ∉ midfielderLabels)
    (h4 : pos ∉ wingerLabels) (h5 : pos ∈ forwardLabels) :
    generate_mock_player_stats pos g =
      { appearances := randint 15 35 (g.ints 0)
        minutes_played := randint 800 2500 (g.ints 1)
        goals := randint 8 25 (g.ints 12)
        assists := randint 3 12 (g.ints 13)
        yellow_cards := randint 0 8 (g.ints 2)
        red_cards := randint 0 1 (g.ints 3)
        passes_completed := randint 200 1500 (g.ints 4)
        pass_accuracy := uniformQ 70 95 (g.rats 0)
        tackles := randint 10 80 (g.ints 5)
        interceptions := randint 5 60 (g.ints 6)
        aerial_duels_won := randint 40 100 (g.ints 16)
        shots := randint 50 120 (g.ints 14)
        shots_on_target := randint 25 60 (g.ints 15)
        dribbles_completed := randint 5 50 (g.ints 10)
        fouls_committed := randint 5 40 (g.ints 11)
        clean_sheets := 0
        saves := none
        goals_conceded := none
        shot_accuracy := ((randint 25 60 (g.ints 15) : ℚ) / (randint 50 120 (g.ints 14) : ℚ)) * 100
        goals_per_90 :=
          ((randint 8 25 (g.ints 12) : ℚ) / (randint 800 2500 (g.ints 1) : ℚ)) * 90
        assists_per_90 :=
          ((randint 3 12 (g.ints 13) : ℚ) / (randint 800 2500 (g.ints 1) : ℚ)) * 90 } := by
  have h8 := le_randint 50 120 (g.ints 14)
  have hm := le_randint 800 2500 (g.ints 1)
  simp only [generate_mock_player_stats, if_neg h1, if_neg h2, if_neg h3, if_neg h4, if_pos h5]
  split_ifs <;> simp_all

theorem gen_eq_of_default (pos : String) (g : Rng)
    (h1 : pos ∉ gkLabels) (h2 : pos ∉ defenderLabels) (h3 : pos ∉ midfielderLabels)
    (h4 : pos ∉ wingerLabels) (h5 : pos ∉ forwardLabels) :
    generate_mock_player_stats pos g =
      { appearances := randint 15 35 (g.ints 0)
        minutes_played := randint 800 2500 (g.ints 1)
        goals := 0
        assists := 0
        yellow_cards := randint 0 8 (g.ints 2)
        red_cards := randint 0 1 (g.ints 3)
        passes_completed := randint 200 1500 (g.ints 4)
        pass_accuracy := uniformQ 70 95 (g.rats 0)
        tackles := randint 10 80 (g.ints 5)
        interceptions := randint 5 60 (g.ints 6)
        aerial_duels_won := randint 10 100 (g.ints 7)
        shots := randint 5 80 (g.ints 8)
        shots_on_target := randint 2 40 (g.ints 9)
        dribbles_completed := randint 5 50 (g.ints 10)
        fouls_committed := randint 5 40 (g.ints 11)
        clean_sheets := 0
        saves := none
        goals_conceded := none
        shot_accuracy := ((randint 2 40 (g.ints 9) : ℚ) / (randint 5 80 (g.ints 8) : ℚ)) * 100
        goals_per_90 := 0
        assists_per_90 := 0 } := by
  have h8 := le_randint 5 80 (g.ints 8)
  have hm := le_randint 800 2500 (g.ints 1)
  simp only [generate_mock_player_stats, if_neg h1, if_neg h2, if_neg h3, if_neg h4, if_neg h5]
  split_ifs <;> simp_all

/-! Disjointness of the position-label classes (the dispatch is a chain of
`elif`s, so a later branch runs only when all earlier tests failed). -/

theorem defender_not_gk (p : String) (h : p ∈ defenderLabels) : p ∉ gkLabels := by
  fin_cases h <;> decide

theorem midfielder_not_gk (p : String) (h : p ∈ midfielderLabels) : p ∉ gkLabels := by
  fin_cases h <;> decide

theorem midfielder_not_defender (p : String) (h : p ∈ midfielderLabels) :
    p ∉ defenderLabels := by
  fin_cases h <;> decide

theorem winger_not_gk (p : String) (h : p ∈ wingerLabels) : p ∉ gkLabels := by
  fin_cases h <;> decide

theorem winger_not_defender (p : String) (h : p ∈ wingerLabels) : p ∉ defenderLabels := by
  fin_cases h <;> decide

theorem winger_not_midfielder (p : String) (h : p ∈ wingerLabels) : p ∉ midfielderLabels := by
  fin_cases h <;> decide

theorem forward_not_gk (p : String) (h : p ∈ forwardLabels) : p ∉ gkLabels := by
  fin_cases h <;> decide

theorem forward_not_defender (p : String) (h : p ∈ forwardLabels) : p ∉ defenderLabels := by
  fin_cases h <;> decide

theorem forward_not_midfielder (p : String) (h : p ∈ forwardLabels) : p ∉ midfielderLabels := by
  fin_cases h <;> decide

theorem forward_not_winger (p : String) (h : p ∈ forwardLabels) : p ∉ wingerLabels := by
  fin_cases h <;> decide

/-- Core facts shared by several claims: `shots` and `minutes_played` never
drop below their step-1 minimums, and the derived stats equal the division
formulas on the final record (the zero fallbacks never fire). -/
theorem gen_core_facts (pos : String) (g : Rng) :
    5 ≤ (generate_mock_player_stats pos g).shots ∧
    800 ≤ (generate_mock_player_stats pos g).minutes_played ∧
    (generate_mock_player_stats pos g).shot_accuracy =
      ((generate_mock_player_stats pos g).shots_on_target : ℚ) /
        ((generate_mock_player_stats pos g).shots : ℚ) * 100 ∧
    (generate_mock_player_stats pos g).goals_per_90 =
      ((generate_mock_player_stats pos g).goals : ℚ) /
        ((generate_mock_player_stats pos g).minutes_played : ℚ) * 90 ∧
    (generate_mock_player_stats pos g).assists_per_90 =
      ((generate_mock_player_stats pos g).assists : ℚ) /
        ((generate_mock_player_stats pos g).minutes_played : ℚ) * 90 := by
  by_cases h1 : pos ∈ gkLabels
  · rw [gen_eq_of_gk pos g h1]
    exact ⟨le_randint 5 80 _, le_randint 800 2500 _, rfl, by simp, rfl⟩
  · by_cases h2 : pos ∈ defenderLabels
    · rw [gen_eq_of_defender pos g h1 h2]
      exact ⟨le_randint 5 80 _, le_randint 800 2500 _, rfl, rfl, rfl⟩
    · by_cases h3 : pos ∈ midfielderLabels
      · rw [gen_eq_of_midfielder pos g h1 h2 h3]
        exact ⟨le_randint 5 80 _, le_randint 800 2500 _, rfl, rfl, rfl⟩
      · by_cases h4 : pos ∈ wingerLabels
        · rw [gen_eq_of_winger pos g h1 h2 h3 h4]
          exact ⟨le_trans (by norm_num) (le_randint 30 80 _), le_randint 800 2500 _,
            rfl, rfl, rfl⟩
        · by_cases h5 : pos ∈ forwardLabels
          · rw [gen_eq_of_forward pos g h1 h2 h3 h4 h5]
            exact ⟨le_trans (by norm_num) (le_randint 50 120 _), le_randint 800 2500 _,
              rfl, rfl, rfl⟩
          · rw [gen_eq_of_default pos g h1 h2 h3 h4 h5]
            exact ⟨le_randint 5 80 _, le_randint 800 2500 _, rfl, by simp, by simp⟩

/-- C1: for every position, the record returned by
`generate_mock_player_stats` has its derived metrics computed from the final
(post-override) base metrics: `shot_accuracy = shots_on_target/shots*100`
when `shots > 0` and `0` when `shots = 0`; `goals_per_90 =
goals/minutes_played*90` and `assists_per_90 = assists/minutes_played*90`
when `minutes_played > 0`, and both `0` when `minutes_played = 0`. -/
theorem derived_metrics_from_final_base (pos : String) (g : Rng) :
    (0 < (generate_mock_player_stats pos g).shots →
      (generate_mock_player_stats pos g).shot_accuracy =
        ((generate_mock_player_stats pos g).shots_on_target : ℚ) /
          ((generate_mock_player_stats pos g).shots : ℚ) * 100) ∧
    ((generate_mock_player_stats pos g).shots = 0 →
      (generate_mock_player_stats pos g).shot_accuracy = 0) ∧
    (0 < (generate_mock_player_stats pos g).minutes_played →
      (generate_mock_player_stats pos g).goals_per_90 =
        ((generate_mock_player_stats pos g).goals : ℚ) /
          ((generate_mock_player_stats pos g).minutes_played : ℚ) * 90 ∧
      (generate_mock_player_stats pos g).assists_per_90 =
        ((generate_mock_player_stats pos g).assists : ℚ) /
          ((generate_mock_player_stats pos g).minutes_played : ℚ) * 90) ∧
    ((generate_mock_player_stats pos g).minutes_played = 0 →
      (generate_mock_player_stats pos g).goals_per_90 = 0 ∧
      (generate_mock_player_stats pos g).assists_per_90 = 0) := by
  obtain ⟨hs, hm, hsa, hg, ha⟩ := gen_core_facts pos g
  exact ⟨fun _ => hsa, fun h0 => absurd h0 (by omega), fun _ => ⟨hg, ha⟩,
    fun h0 => absurd h0 (by omega)⟩

/-- C1 witness: the theorem instantiated at position `"Forward"` and the
all-zero random source, where `shots = 50 > 0` and `minutes_played = 800 > 0`. -/
theorem derived_metrics_from_final_base_witness :
    0 < (generate_mock_player_stats "Forward" rng0).shots ∧
    0 < (generate_mock_player_stats "Forward" rng0).minutes_played ∧
    (generate_mock_player_stats "Forward" rng0).shot_accuracy =
      ((generate_mock_player_stats "Forward" rng0).shots_on_target : ℚ) /
        ((generate_mock_player_stats "Forward" rng0).shots : ℚ) * 100 ∧
    (generate_mock_player_stats "Forward" rng0).goals_per_90 =
      ((generate_mock_player_stats "Forward" rng0).goals : ℚ) /
        ((generate_mock_player_stats "Forward" rng0).minutes_played : ℚ) * 90 :=
  ⟨by decide, by decide,
    (derived_metrics_from_final_base "Forward" rng0).1 (by decide),
    ((derived_metrics_from_final_base "Forward" rng0).2.2.1 (by decide)).1⟩

/-- C10: for every position and every outcome of the random source, the
record has `shots ≥ 5` and `minutes_played ≥ 800` (no profile lowers them
below the step-1 minimums), so the zero-substitution fallback branches are
unreachable and each derived metric is computed by an actual division by a
strictly positive number. -/
theorem derived_divisions_positive (pos : String) (g : Rng) :
    5 ≤ (generate_mock_player_stats pos g).shots ∧
    800 ≤ (generate_mock_player_stats pos g).minutes_played ∧
    (generate_mock_player_stats pos g).shot_accuracy =
      ((generate_mock_player_stats pos g).shots_on_target : ℚ) /
        ((generate_mock_player_stats pos g).shots : ℚ) * 100 ∧
    (generate_mock_player_stats pos g).goals_per_90 =
      ((generate_mock_player_stats pos g).goals : ℚ) /
        ((generate_mock_player_stats pos g).minutes_played : ℚ) * 90 ∧
    (generate_mock_player_stats pos g).assists_per_90 =
      ((generate_mock_player_stats pos g).assists : ℚ) /
        ((generate_mock_player_stats pos g).minutes_played : ℚ) * 90 :=
  gen_core_facts pos g

/-- C4: goalkeeper-class labels get `goals = 0`, a populated `saves` field
drawn from `[40, 120]` and a populated `goals_conceded` field drawn from
`[15, 45]`; every other label leaves both fields absent. -/
theorem goalkeeper_fields (pos : String) (g : Rng) :
    (pos ∈ gkLabels →
      (generate_mock_player_stats pos g).goals = 0 ∧
      (∃ s, (generate_mock_player_stats pos g).saves = some s ∧ 40 ≤ s ∧ s ≤ 120) ∧
      (∃ c, (generate_mock_player_stats pos g).goals_conceded = some c ∧ 15 ≤ c ∧ c ≤ 45)) ∧
    (pos ∉ gkLabels →
      (generate_mock_player_stats pos g).saves = none ∧
      (generate_mock_player_stats pos g).goals_conceded = none) := by
  constructor
  · intro h1
    rw [gen_eq_of_gk pos g h1]
    exact ⟨rfl,
      ⟨randint 40 120 (g.ints 13), rfl, le_randint 40 120 _, randint_le 40 120 _ (by norm_num)⟩,
      ⟨randint 15 45 (g.ints 15), rfl, le_randint 15 45 _, randint_le 15 45 _ (by norm_num)⟩⟩
  · intro h1
    by_cases h2 : pos ∈ defenderLabels
    · rw [gen_eq_of_defender pos g h1 h2]; exact ⟨rfl, rfl⟩
    · by_cases h3 : pos ∈ midfielderLabels
      · rw [gen_eq_of_midfielder pos g h1 h2 h3]; exact ⟨rfl, rfl⟩
      · by_cases h4 : pos ∈ wingerLabels
        · rw [gen_eq_of_winger pos g h1 h2 h3 h4]; exact ⟨rfl, rfl⟩
        · by_cases h5 : pos ∈ forwardLabels
          · rw [gen_eq_of_forward pos g h1 h2 h3 h4 h5]; exact ⟨rfl, rfl⟩
          · rw [gen_eq_of_default pos g h1 h2 h3 h4 h5]; exact ⟨rfl, rfl⟩

/-- C4 witness: the theorem instantiated at `"Goalkeeper"` (goals forced to
zero, saves populated) and at `"Defender"` (both goalkeeper fields absent),
with the all-zero random source. -/
theorem goalkeeper_fields_witness :
    "Goalkeeper" ∈ gkLabels ∧
    (generate_mock_player_stats "Goalkeeper" rng0).goals = 0 ∧
    "Defender" ∉ gkLabels ∧
    (generate_mock_player_stats "Defender" rng0).saves = none :=
  ⟨by decide, ((goalkeeper_fields "Goalkeeper" rng0).1 (by decide)).1,
    by decide, ((goalkeeper_fields "Defender" rng0).2 (by decide)).1⟩

/-- The random source exhibiting the C9 inconsistency: raw draw 38 for the
`shots_on_target` call site (the tenth integer draw), 0 everywhere else. -/
def rng9 : Rng :=
  { ints := fun n => if n = 9 then 38 else 0
    rats := fun _ => 0 }

/-- C9: for position `"Defender"` (whose profile overrides neither `shots`
nor `shots_on_target`) there is an outcome of the random source with
`shots_on_target > shots`, and hence `shot_accuracy > 100`: the two metrics
are sampled independently from `[5, 80]` and `[2, 40]` with no consistency
constraint. -/
theorem shots_consistency_violation :
    ∃ g : Rng,
      (generate_mock_player_stats "Defender" g).shots <
        (generate_mock_player_stats "Defender" g).shots_on_target ∧
      100 < (generate_mock_player_stats "Defender" g).shot_accuracy := by
  refine ⟨rng9, by decide, ?_⟩
  rw [gen_eq_of_defender "Defender" rng9 (by decide) (by decide)]
  norm_num [randint, rng9]

/-- C5: every sampled metric lies in its documented inclusive range — the
step-1 range for fields the matched profile does not override, and the
profile's override range for fields it does.  One conjunct per profile
class, plus one for unmatched labels. -/
theorem sampled_ranges (pos : String) (g : Rng) :
    (pos ∈ gkLabels →
      15 ≤ (generate_mock_player_stats pos g).appearances ∧
      (generate_mock_player_stats pos g).appearances ≤ 35 ∧
      800 ≤ (generate_mock_player_stats pos g).minutes_played ∧
      (generate_mock_player_stats pos g).minutes_played ≤ 2500 ∧
      (generate_mock_player_stats pos g).goals = 0 ∧
      (generate_mock_player_stats pos g).assists ≤ 2 ∧
      (generate_mock_player_stats pos g).yellow_cards ≤ 8 ∧
      (generate_mock_player_stats pos g).red_cards ≤ 1 ∧
      200 ≤ (generate_mock_player_stats pos g).passes_completed ∧
      (generate_mock_player_stats pos g).passes_completed ≤ 1500 ∧
      40 ≤ (generate_mock_player_stats pos g).pass_accuracy ∧
      (generate_mock_player_stats pos g).pass_accuracy ≤ 70 ∧
      10 ≤ (generate_mock_player_stats pos g).tackles ∧
      (generate_mock_player_stats pos g).tackles ≤ 80 ∧
      5 ≤ (generate_mock_player_stats pos g).interceptions ∧
      (generate_mock_player_stats pos g).interceptions ≤ 60 ∧
      10 ≤ (generate_mock_player_stats pos g).aerial_duels_won ∧
      (generate_mock_player_stats pos g).aerial_duels_won ≤ 100 ∧
      5 ≤ (generate_mock_player_stats pos g).shots ∧
      (generate_mock_player_stats pos g).shots ≤ 80 ∧
      2 ≤ (generate_mock_player_stats pos g).shots_on_target ∧
      (generate_mock_player_stats pos g).shots_on_target ≤ 40 ∧
      5 ≤ (generate_mock_player_stats pos g).dribbles_completed ∧
      (generate_mock_player_stats pos g).dribbles_completed ≤ 50 ∧
      5 ≤ (generate_mock_player_stats pos g).fouls_committed ∧
      (generate_mock_player_stats pos g).fouls_committed ≤ 40 ∧
      5 ≤ (generate_mock_player_stats pos g).clean_sheets ∧
      (generate_mock_player_stats pos g).clean_sheets ≤ 15 ∧
      (∃ s, (generate_mock_player_stats pos g).saves = some s ∧ 40 ≤ s ∧ s ≤ 120) ∧
      (∃ c, (generate_mock_player_stats pos g).goals_conceded = some c ∧ 15 ≤ c ∧ c ≤ 45)) ∧
    (pos ∈ defenderLabels →
      15 ≤ (generate_mock_player_stats pos g).appearances ∧
      (generate_mock_player_stats pos g).appearances ≤ 35 ∧
      800 ≤ (generate_mock_player_stats pos g).minutes_played ∧
      (generate_mock_player_stats pos g).minutes_played ≤ 2500 ∧
      (generate_mock_player_stats pos g).goals ≤ 5 ∧
      (generate_mock_player_stats pos g).assists ≤ 8 ∧
      (generate_mock_player_stats pos g).yellow_cards ≤ 8 ∧
      (generate_mock_player_stats pos g).red_cards ≤ 1 ∧
      200 ≤ (generate_mock_player_stats pos g).passes_completed ∧
      (generate_mock_player_stats pos g).passes_completed ≤ 1500 ∧
      70 ≤ (generate_mock_player_stats pos g).pass_accuracy ∧
      (generate_mock_player_stats pos g).pass_accuracy ≤ 95 ∧
      30 ≤ (generate_mock_player_stats pos g).tackles ∧
      (generate_mock_player_stats pos g).tackles ≤ 80 ∧
      20 ≤ (generate_mock_player_stats pos g).interceptions ∧
      (generate_mock_player_stats pos g).interceptions ≤ 60 ∧
      30 ≤ (generate_mock_player_stats pos g).aerial_duels_won ∧
      (generate_mock_player_stats pos g).aerial_duels_won ≤ 100 ∧
      5 ≤ (generate_mock_player_stats pos g).shots ∧
      (generate_mock_player_stats pos g).shots ≤ 80 ∧
      2 ≤ (generate_mock_player_stats pos g).shots_on_target ∧
      (generate_mock_player_stats pos g).shots_on_target ≤ 40 ∧
      5 ≤ (generate_mock_player_stats pos g).dribbles_completed ∧
      (generate_mock_player_stats pos g).dribbles_completed ≤ 50 ∧
      5 ≤ (generate_mock_player_stats pos g).fouls_committed ∧
      (generate_mock_player_stats pos g).fouls_committed ≤ 40 ∧
      8 ≤ (generate_mock_player_stats pos g).clean_sheets ∧
      (generate_mock_player_stats pos g).clean_sheets ≤ 18) ∧
    (pos ∈ midfielderLabels →
      15 ≤ (generate_mock_player_stats pos g).appearances ∧
      (generate_mock_player_stats pos g).appearances ≤ 35 ∧
      800 ≤ (generate_mock_player_stats pos g).minutes_played ∧
      (generate_mock_player_stats pos g).minutes_played ≤ 2500 ∧
      2 ≤ (generate_mock_player_stats pos g).goals ∧
      (generate_mock_player_stats pos g).goals ≤ 12 ∧
      3 ≤ (generate_mock_player_stats pos g).assists ∧
      (generate_mock_player_stats pos g).assists ≤ 15 ∧
      (generate_mock_player_stats pos g).yellow_cards ≤ 8 ∧
      (generate_mock_player_stats pos g).red_cards ≤ 1 ∧
      800 ≤ (generate_mock_player_stats pos g).passes_completed ∧
      (generate_mock_player_stats pos g).passes_completed ≤ 1500 ∧
      80 ≤ (generate_mock_player_stats pos g).pass_accuracy ∧
      (generate_mock_player_stats pos g).pass_accuracy ≤ 95 ∧
      10 ≤ (generate_mock_player_stats pos g).tackles ∧
      (generate_mock_player_stats pos g).tackles ≤ 80 ∧
      5 ≤ (generate_mock_player_stats pos g).interceptions ∧
      (generate_mock_player_stats pos g).interceptions ≤ 60 ∧
      10 ≤ (generate_mock_player_stats pos g).aerial_duels_won ∧
      (generate_mock_player_stats pos g).aerial_duels_won ≤ 100 ∧
      5 ≤ (generate_mock_player_stats pos g).shots ∧
      (generate_mock_player_stats pos g).shots ≤ 80 ∧
      2 ≤ (generate_mock_player_stats pos g).shots_on_target ∧
      (generate_mock_player_stats pos g).shots_on_target ≤ 40 ∧
      20 ≤ (generate_mock_player_stats pos g).dribbles_completed ∧
      (generate_mock_player_stats pos g).dribbles_completed ≤ 50 ∧
      5 ≤ (generate_mock_player_stats pos g).fouls_committed ∧
      (generate_mock_player_stats pos g).fouls_committed ≤ 40 ∧
      (generate_mock_player_stats pos g).clean_sheets = 0) ∧
    (pos ∈ wingerLabels →
      15 ≤ (generate_mock_player_stats pos g).appearances ∧
      (generate_mock_player_stats pos g).appearances ≤ 35 ∧
      800 ≤ (generate_mock_player_stats pos g).minutes_played ∧
      (generate_mock_player_stats pos g).minutes_played ≤ 2500 ∧
      5 ≤ (generate_mock_player_stats pos g).goals ∧
      (generate_mock_player_stats pos g).goals ≤ 15 ∧
      8 ≤ (generate_mock_player_stats pos g).assists ∧
      (generate_mock_player_stats pos g).assists ≤ 20 ∧
      (generate_mock_player_stats pos g).yellow_cards ≤ 8 ∧
      (generate_mock_player_stats pos g).red_cards ≤ 1 ∧
      200 ≤ (generate_mock_player_stats pos g).passes_completed ∧
      (generate_mock_player_stats pos g).passes_completed ≤ 1500 ∧
      70 ≤ (generate_mock_player_stats pos g).pass_accuracy ∧
      (generate_mock_player_stats pos g).pass_accuracy ≤ 95 ∧
      10 ≤ (generate_mock_player_stats pos g).tackles ∧
      (generate_mock_player_stats pos g).tackles ≤ 80 ∧
      5 ≤ (generate_mock_player_stats pos g).interceptions ∧
      (generate_mock_player_stats pos g).interceptions ≤ 60 ∧
      10 ≤ (generate_mock_player_stats pos g).aerial_duels_won ∧
      (generate_mock_player_stats pos g).aerial_duels_won ≤ 100 ∧
      30 ≤ (generate_mock_player_stats pos g).shots ∧
      (generate_mock_player_stats pos g).shots ≤ 80 ∧
      15 ≤ (generate_mock_player_stats pos g).shots_on_target ∧
      (generate_mock_player_stats pos g).shots_on_target ≤ 40 ∧
      30 ≤ (generate_mock_player_stats pos g).dribbles_completed ∧
      (generate_mock_player_stats pos g).dribbles_completed ≤ 60 ∧
      5 ≤ (generate_mock_player_stats pos g).fouls_committed ∧
      (generate_mock_player_stats pos g).fouls_committed ≤ 40 ∧
      (generate_mock_player_stats pos g).clean_sheets = 0) ∧
    (pos ∈ forwardLabels →
      15 ≤ (generate_mock_player_stats pos g).appearances ∧
      (generate_mock_player_stats pos g).appearances ≤ 35 ∧
      800 ≤ (generate_mock_player_stats pos g).minutes_played ∧
      (generate_mock_player_stats pos g).minutes_played ≤ 2500 ∧
      8 ≤ (generate_mock_player_stats pos g).goals ∧
      (generate_mock_player_stats pos g).goals ≤ 25 ∧
      3 ≤ (generate_mock_player_stats pos g).assists ∧
      (generate_mock_player_stats pos g).assists ≤ 12 ∧
      (generate_mock_player_stats pos g).yellow_cards ≤ 8 ∧
      (generate_mock_player_stats pos g).red_cards ≤ 1 ∧
      200 ≤ (generate_mock_player_stats pos g).passes_completed ∧
      (generate_mock_player_stats pos g).passes_completed ≤ 1500 ∧
      70 ≤ (generate_mock_player_stats pos g).pass_accuracy ∧
      (generate_mock_player_stats pos g).pass_accuracy ≤ 95 ∧
      10 ≤ (generate_mock_player_stats pos g).tackles ∧
      (generate_mock_player_stats pos g).tackles ≤ 80 ∧
      5 ≤ (generate_mock_player_stats pos g).interceptions ∧
      (generate_mock_player_stats pos g).interceptions ≤ 60 ∧
      40 ≤ (generate_mock_player_stats pos g).aerial_duels_won ∧
      (generate_mock_player_stats pos g).aerial_duels_won ≤ 100 ∧
      50 ≤ (generate_mock_player_stats pos g).shots ∧
      (generate_mock_player_stats pos g).shots ≤ 120 ∧
      25 ≤ (generate_mock_player_stats pos g).shots_on_target ∧
      (generate_mock_player_stats pos g).shots_on_target ≤ 60 ∧
      5 ≤ (generate_mock_player_stats pos g).dribbles_completed ∧
      (generate_mock_player_stats pos g).dribbles_completed ≤ 50 ∧
      5 ≤ (generate_mock_player_stats pos g).fouls_committed ∧
      (generate_mock_player_stats pos g).fouls_committed ≤ 40 ∧
      (generate_mock_player_stats pos g).clean_sheets = 0) ∧
    (pos ∉ gkLabels → pos ∉ defenderLabels → pos ∉ midfielderLabels →
      pos ∉ wingerLabels → pos ∉ forwardLabels →
      15 ≤ (generate_mock_player_stats pos g).appearances ∧
      (generate_mock_player_stats pos g).appearances ≤ 35 ∧
      800 ≤ (generate_mock_player_stats pos g).minutes_played ∧
      (generate_mock_player_stats pos g).minutes_played ≤ 2500 ∧
      (generate_mock_player_stats pos g).goals = 0 ∧
      (generate_mock_player_stats pos g).assists = 0 ∧
      (generate_mock_player_stats pos g).yellow_cards ≤ 8 ∧
      (generate_mock_player_stats pos g).red_cards ≤ 1 ∧
      200 ≤ (generate_mock_player_stats pos g).passes_completed ∧
      (generate_mock_player_stats pos g).passes_completed ≤ 1500 ∧
      70 ≤ (generate_mock_player_stats pos g).pass_accuracy ∧
      (generate_mock_player_stats pos g).pass_accuracy ≤ 95 ∧
      10 ≤ (generate_mock_player_stats pos g).tackles ∧
      (generate_mock_player_stats pos g).tackles ≤ 80 ∧
      5 ≤ (generate_mock_player_stats pos g).interceptions ∧
      (generate_mock_player_stats pos g).interceptions ≤ 60 ∧
      10 ≤ (generate_mock_player_stats pos g).aerial_duels_won ∧
      (generate_mock_player_stats pos g).aerial_duels_won ≤ 100 ∧
      5 ≤ (generate_mock_player_stats pos g).shots ∧
      (generate_mock_player_stats pos g).shots ≤ 80 ∧
      2 ≤ (generate_mock_player_stats pos g).shots_on_target ∧
      (generate_mock_player_stats pos g).shots_on_target ≤ 40 ∧
      5 ≤ (generate_mock_player_stats pos g).dribbles_completed ∧
      (generate_mock_player_stats pos g).dribbles_completed ≤ 50 ∧
      5 ≤ (generate_mock_player_stats pos g).fouls_committed ∧
      (generate_mock_player_stats pos g).fouls_committed ≤ 40 ∧
      (generate_mock_player_stats pos g).clean_sheets = 0) := by
  refine ⟨?_, ?_, ?_, ?_, ?_, ?_⟩
  · intro h1
    rw [gen_eq_of_gk pos g h1]
    exact ⟨le_randint _ _ _, randint_le _ _ _ (by norm_num),
      le_randint _ _ _, randint_le _ _ _ (by norm_num), rfl,
      randint_le _ _ _ (by norm_num),
      randint_le _ _ _ (by norm_num), randint_le _ _ _ (by norm_num),
      le_randint _ _ _, randint_le _ _ _ (by norm_num),
      le_uniformQ _ _ _ (by norm_num), uniformQ_le _ _ _ (by norm_num),
      le_randint _ _ _, randint_le _ _ _ (by norm_num),
      le_randint _ _ _, randint_le _ _ _ (by norm_num),
      le_randint _ _ _, randint_le _ _ _ (by norm_num),
      le_randint _ _ _, randint_le _ _ _ (by norm_num),
      le_randint _ _ _, randint_le _ _ _ (by norm_num),
      le_randint _ _ _, randint_le _ _ _ (by norm_num),
      le_randint _ _ _, randint_le _ _ _ (by norm_num),
      le_randint _ _ _, randint_le _ _ _ (by norm_num),
      ⟨_, rfl, le_randint _ _ _, randint_le _ _ _ (by norm_num)⟩,
      ⟨_, rfl, le_randint _ _ _, randint_le _ _ _ (by norm_num)⟩⟩
  · intro h2
    rw [gen_eq_of_defender pos g (defender_not_gk pos h2) h2]
    exact ⟨le_randint _ _ _, randint_le _ _ _ (by norm_num),
      le_randint _ _ _, randint_le _ _ _ (by norm_num),
      randint_le _ _ _ (by norm_num), randint_le _ _ _ (by norm_num),
      randint_le _ _ _ (by norm_num), randint_le _ _ _ (by norm_num),
      le_randint _ _ _, randint_le _ _ _ (by norm_num),
      le_uniformQ _ _ _ (by norm_num), uniformQ_le _ _ _ (by norm_num),
      le_randint _ _ _, randint_le _ _ _ (by norm_num),
      le_randint _ _ _, randint_le _ _ _ (by norm_num),
      le_randint _ _ _, randint_le _ _ _ (by norm_num),
      le_randint _ _ _, randint_le _ _ _ (by norm_num),
      le_randint _ _ _, randint_le _ _ _ (by norm_num),
      le_randint _ _ _, randint_le _ _ _ (by norm_num),
      le_randint _ _ _, randint_le _ _ _ (by norm_num),
      le_randint _ _ _, randint_le _ _ _ (by norm_num)⟩
  · intro h3
    rw [gen_eq_of_midfielder pos g (midfielder_not_gk pos h3)
      (midfielder_not_defender pos h3) h3]
    exact ⟨le_randint _ _ _, randint_le _ _ _ (by norm_num),
      le_randint _ _ _, randint_le _ _ _ (by norm_num),
      le_randint _ _ _, randint_le _ _ _ (by norm_num),
      le_randint _ _ _, randint_le _ _ _ (by norm_num),
      randint_le _ _ _ (by norm_num), randint_le _ _ _ (by norm_num),
      le_randint _ _ _, randint_le _ _ _ (by norm_num),
      le_uniformQ _ _ _ (by norm_num), uniformQ_le _ _ _ (by norm_num),
      le_randint _ _ _, randint_le _ _ _ (by norm_num),
      le_randint _ _ _, randint_le _ _ _ (by norm_num),
      le_randint _ _ _, randint_le _ _ _ (by norm_num),
      le_randint _ _ _, randint_le _ _ _ (by norm_num),
      le_randint _ _ _, randint_le _ _ _ (by norm_num),
      le_randint _ _ _, randint_le _ _ _ (by norm_num),
      le_randint _ _ _, randint_le _ _ _ (by norm_num), rfl⟩
  · intro h4
    rw [gen_eq_of_winger pos g (winger_not_gk pos h4) (winger_not_defender pos h4)
      (winger_not_midfielder pos h4) h4]
    exact ⟨le_randint _ _ _, randint_le _ _ _ (by norm_num),
      le_randint _ _ _, randint_le _ _ _ (by norm_num),
      le_randint _ _ _, randint_le _ _ _ (by norm_num),
      le_randint _ _ _, randint_le _ _ _ (by norm_num),
      randint_le _ _ _ (by norm_num), randint_le _ _ _ (by norm_num),
      le_randint _ _ _, randint_le _ _ _ (by norm_num),
      le_uniformQ _ _ _ (by norm_num), uniformQ_le _ _ _ (by norm_num),
      le_randint _ _ _, randint_le _ _ _ (by norm_num),
      le_randint _ _ _, randint_le _ _ _ (by norm_num),
      le_randint _ _ _, randint_le _ _ _ (by norm_num),
      le_randint _ _ _, randint_le _ _ _ (by norm_num),
      le_randint _ _ _, randint_le _ _ _ (by norm_num),
      le_randint _ _ _, randint_le _ _ _ (by norm_num),
      le_randint _ _ _, randint_le _ _ _ (by norm_num), rfl⟩
  · intro h5
    rw [gen_eq_of_forward pos g (forward_not_gk pos h5) (forward_not_defender pos h5)
      (forward_not_midfielder pos h5) (forward_not_winger pos h5) h5]
    exact ⟨le_randint _ _ _, randint_le _ _ _ (by norm_num),
      le_randint _ _ _, randint_le _ _ _ (by norm_num),
      le_randint _ _ _, randint_le _ _ _ (by norm_num),
      le_randint _ _ _, randint_le _ _ _ (by norm_num),
      randint_le _ _ _ (by norm_num), randint_le _ _ _ (by norm_num),
      le_randint _ _ _, randint_le _ _ _ (by norm_num),
      le_uniformQ _ _ _ (by norm_num), uniformQ_le _ _ _ (by norm_num),
      le_randint _ _ _, randint_le _ _ _ (by norm_num),
      le_randint _ _ _, randint_le _ _ _ (by norm_num),
      le_randint _ _ _, randint_le _ _ _ (by norm_num),
      le_randint _ _ _, randint_le _ _ _ (by norm_num),
      le_randint _ _ _, randint_le _ _ _ (by norm_num),
      le_randint _ _ _, randint_le _ _ _ (by norm_num),
      le_randint _ _ _, randint_le _ _ _ (by norm_num), rfl⟩
  · intro h1 h2 h3 h4 h5
    rw [gen_eq_of_default pos g h1 h2 h3 h4 h5]
    exact ⟨le_randint _ _ _, randint_le _ _ _ (by norm_num),
      le_randint _ _ _, randint_le _ _ _ (by norm_num), rfl, rfl,
      randint_le _ _ _ (by norm_num), randint_le _ _ _ (by norm_num),
      le_randint _ _ _, randint_le _ _ _ (by norm_num),
      le_uniformQ _ _ _ (by norm_num), uniformQ_le _ _ _ (by norm_num),
      le_randint _ _ _, randint_le _ _ _ (by norm_num),
      le_randint _ _ _, randint_le _ _ _ (by norm_num),
      le_randint _ _ _, randint_le _ _ _ (by norm_num),
      le_randint _ _ _, randint_le _ _ _ (by norm_num),
      le_randint _ _ _, randint_le _ _ _ (by norm_num),
      le_randint _ _ _, randint_le _ _ _ (by norm_num),
      le_randint _ _ _, randint_le _ _ _ (by norm_num), rfl⟩

/-- C5 witness: the theorem instantiated at `"Goalkeeper"` and at the
unmatched empty-string label, with the all-zero random source. -/
theorem sampled_ranges_witness :
    "Goalkeeper" ∈ gkLabels ∧
    15 ≤ (generate_mock_player_stats "Goalkeeper" rng0).appearances ∧
    (generate_mock_player_stats "" rng0).appearances ≤ 35 :=
  ⟨by decide, ((sampled_ranges "Goalkeeper" rng0).1 (by decide)).1,
    (((sampled_ranges "" rng0).2.2.2.2.2 (by decide) (by decide) (by decide)
      (by decide) (by decide)).2.1)⟩

/-! Generic facts about draws arranged with `List.range`. -/

theorem range_map_getD {α : Type} (f : ℕ → α) (n i : ℕ) (d : α) (hi : i < n) :
    ((List.range n).map f).getD i d = f i := by
  rw [List.getD_eq_getElem?_getD, List.getElem?_map, List.getElem?_range hi]
  rfl

theorem mem_range_map {α : Type} (f : ℕ → α) (n : ℕ) (x : α)
    (hx : x ∈ (List.range n).map f) : ∃ i, i < n ∧ x = f i := by
  rw [List.mem_map] at hx
  obtain ⟨i, hi, h⟩ := hx
  exact ⟨i, List.mem_range.mp hi, h.symm⟩

/-- `round(x, 1)` of a value in `[6, 9.5)` stays in `[6, 9.5]`. -/
theorem roundTenth_mem (q : ℚ) (h1 : 6 ≤ q) (h2 : q < 95 / 10) :
    6 ≤ roundTenth q ∧ roundTenth q ≤ 95 / 10 := by
  have hl : (60 : ℤ) ≤ round (q * 10) := by
    rw [round_eq, Int.le_floor]; push_cast; linarith
  have hr : round (q * 10) ≤ 95 := by
    have : (⌊q * 10 + 1 / 2⌋ : ℤ) < 96 := by rw [Int.floor_lt]; push_cast; linarith
    rw [round_eq]; omega
  have hl' : (60 : ℚ) ≤ (round (q * 10) : ℤ) := by exact_mod_cast hl
  have hr' : ((round (q * 10) : ℤ) : ℚ) ≤ 95 := by exact_mod_cast hr
  unfold roundTenth
  constructor <;> linarith

/-! Relations between the label lists of `generate_performance_trends` and
the profile classes of `generate_mock_player_stats`. -/

theorem trendAttack_sub (p : String) (h : p ∈ trendAttackLabels) :
    p ∈ forwardLabels ∨ p ∈ wingerLabels := by
  fin_cases h <;> decide

theorem trendMid_sub (p : String) (h : p ∈ trendMidLabels) : p ∈ midfielderLabels := by
  fin_cases h
  decide

theorem mid_not_trendAttack (p : String) (h : p ∈ midfielderLabels) :
    p ∉ trendAttackLabels := by
  fin_cases h <;> decide

theorem forward_not_trendMid (p : String) (h : p ∈ forwardLabels) : p ∉ trendMidLabels := by
  fin_cases h <;> decide

theorem winger_not_trendMid (p : String) (h : p ∈ wingerLabels) : p ∉ trendMidLabels := by
  fin_cases h <;> decide

/-- C2: per-match goals and assists produced by `generate_performance_trends`
lie in the position-conditioned ranges: goals in `[0, 2]` and assists in
`[0, 1]` for Forward/Striker-class or Winger-class labels; goals in `[0, 1]`
and assists in `[0, 2]` for Midfielder-class labels; goals and assists in
`[0, 1]` for every other label. -/
theorem trend_goal_assist_ranges (pos : String) (now : ℤ) (g : Rng) :
    (pos ∈ forwardLabels ∨ pos ∈ wingerLabels →
      (∀ x ∈ (generate_performance_trends pos now g).goals, x ≤ 2) ∧
      (∀ x ∈ (generate_performance_trends pos now g).assists, x ≤ 1)) ∧
    (pos ∈ midfielderLabels →
      (∀ x ∈ (generate_performance_trends pos now g).goals, x ≤ 1) ∧
      (∀ x ∈ (generate_performance_trends pos now g).assists, x ≤ 2)) ∧
    (pos ∉ forwardLabels → pos ∉ wingerLabels → pos ∉ midfielderLabels →
      (∀ x ∈ (generate_performance_trends pos now g).goals, x ≤ 1) ∧
      (∀ x ∈ (generate_performance_trends pos now g).assists, x ≤ 1)) := by
  refine ⟨?_, ?_, ?_⟩
  · intro h
    have hnm : pos ∉ trendMidLabels := by
      rcases h with h | h
      · exact forward_not_trendMid pos h
      · exact winger_not_trendMid pos h
    constructor
    · intro x hx
      simp only [generate_performance_trends] at hx
      obtain ⟨i, _, rfl⟩ := mem_range_map _ _ _ hx
      split_ifs <;> exact le_trans (randint_le _ _ _ (by norm_num)) (by norm_num)
    · intro x hx
      simp only [generate_performance_trends] at hx
      obtain ⟨i, _, rfl⟩ := mem_range_map _ _ _ hx
      split_ifs <;> exact randint_le _ _ _ (by norm_num)
  · intro h
    have hna : pos ∉ trendAttackLabels := mid_not_trendAttack pos h
    constructor
    · intro x hx
      simp only [generate_performance_trends] at hx
      obtain ⟨i, _, rfl⟩ := mem_range_map _ _ _ hx
      rw [if_neg hna]
      split_ifs <;> exact randint_le _ _ _ (by norm_num)
    · intro x hx
      simp only [generate_performance_trends] at hx
      obtain ⟨i, _, rfl⟩ := mem_range_map _ _ _ hx
      rw [if_neg hna]
      split_ifs <;> exact le_trans (randint_le _ _ _ (by norm_num)) (by norm_num)
  · intro h1 h2 h3
    have hna : pos ∉ trendAttackLabels := fun h => by
      rcases trendAttack_sub pos h with h' | h'
      · exact h1 h'
      · exact h2 h'
    have hnm : pos ∉ trendMidLabels := fun h => h3 (trendMid_sub pos h)
    constructor
    · intro x hx
      simp only [generate_performance_trends] at hx
      obtain ⟨i, _, rfl⟩ := mem_range_map _ _ _ hx
      rw [if_neg hna, if_neg hnm]
      exact randint_le _ _ _ (by norm_num)
    · intro x hx
      simp only [generate_performance_trends] at hx
      obtain ⟨i, _, rfl⟩ := mem_range_map _ _ _ hx
      rw [if_neg hna, if_neg hnm]
      exact randint_le _ _ _ (by norm_num)

/-- C2 witness: the theorem instantiated at the Forward-class label
`"Forward"` and the all-zero random source, evaluated at the first
per-match goals entry. -/
theorem trend_goal_assist_ranges_witness :
    ("Forward" ∈ forwardLabels ∨ "Forward" ∈ wingerLabels) ∧
    (generate_performance_trends "Forward" 0 rng0).goals.getD 0 0 ≤ 2 :=
  ⟨Or.inl (by decide),
    ((trend_goal_assist_ranges "Forward" 0 rng0).1 (Or.inl (by decide))).1 _ (by decide)⟩

/-- C6: `generate_performance_trends` returns five sequences of length
exactly 10; the match date at index `i` is `(9-i)*7` days before `now`
(hence consecutive dates differ by exactly 7 days, the oldest is 63 days
before `now`, and index 9 is `now`); every rating lies in `[6, 9.5]` and is
an integer number of tenths; every minutes value lies in `[60, 90]`. -/
theorem trend_series_shape (pos : String) (now : ℤ) (g : Rng) :
    (generate_performance_trends pos now g).matchDates.length = 10 ∧
    (generate_performance_trends pos now g).goals.length = 10 ∧
    (generate_performance_trends pos now g).assists.length = 10 ∧
    (generate_performance_trends pos now g).rating.length = 10 ∧
    (generate_performance_trends pos now g).minutes.length = 10 ∧
    (∀ i, i < 10 →
      (generate_performance_trends pos now g).matchDates.getD i 0 =
        now - (9 - (i : ℤ)) * 7) ∧
    (∀ i, i + 1 < 10 →
      (generate_performance_trends pos now g).matchDates.getD (i + 1) 0 =
        (generate_performance_trends pos now g).matchDates.getD i 0 + 7) ∧
    (generate_performance_trends pos now g).matchDates.getD 0 0 = now - 63 ∧
    (generate_performance_trends pos now g).matchDates.getD 9 0 = now ∧
    (∀ r ∈ (generate_performance_trends pos now g).rating,
      6 ≤ r ∧ r ≤ 95 / 10 ∧ ∃ k : ℤ, r = (k : ℚ) / 10) ∧
    (∀ m ∈ (generate_performance_trends pos now g).minutes, 60 ≤ m ∧ m ≤ 90) := by
  have hdate : ∀ i, i < 10 →
      (generate_performance_trends pos now g).matchDates.getD i 0 =
        now - (9 - (i : ℤ)) * 7 := by
    intro i hi
    simp only [generate_performance_trends]
    exact range_map_getD _ 10 i 0 hi
  refine ⟨by simp [generate_performance_trends], by simp [generate_performance_trends],
    by simp [generate_performance_trends], by simp [generate_performance_trends],
    by simp [generate_performance_trends], hdate, ?_, ?_, ?_, ?_, ?_⟩
  · intro i hi
    rw [hdate i (by omega), hdate (i + 1) hi]
    push_cast
    ring
  · rw [hdate 0 (by norm_num)]
    norm_num
  · rw [hdate 9 (by norm_num)]
    norm_num
  · intro r hr
    simp only [generate_performance_trends] at hr
    obtain ⟨i, _, rfl⟩ := mem_range_map _ _ _ hr
    obtain ⟨hl, hr'⟩ := roundTenth_mem (uniformQ 6 (95 / 10) (g.rats i))
      (le_uniformQ _ _ _ (by norm_num)) (uniformQ_lt _ _ _ (by norm_num))
    exact ⟨hl, hr', round ((uniformQ 6 (95 / 10) (g.rats i)) * 10), rfl⟩
  · intro m hm
    simp only [generate_performance_trends] at hm
    obtain ⟨i, _, rfl⟩ := mem_range_map _ _ _ hm
    exact ⟨le_randint _ _ _, randint_le _ _ _ (by norm_num)⟩

/-- C6 witness: the theorem instantiated at `"Forward"`, `now = 0` and the
all-zero random source, evaluated at index 0 of the dates and minutes. -/
theorem trend_series_shape_witness :
    (0 : ℕ) < 10 ∧
    (generate_performance_trends "Forward" 0 rng0).matchDates.getD 0 0 =
      0 - (9 - ((0 : ℕ) : ℤ)) * 7 ∧
    60 ≤ (generate_performance_trends "Forward" 0 rng0).minutes.getD 0 0 :=
  ⟨by norm_num,
    (trend_series_shape "Forward" 0 rng0).2.2.2.2.2.1 0 (by norm_num),
    ((trend_series_shape "Forward" 0 rng0).2.2.2.2.2.2.2.2.2.2 _ (by decide)).1⟩

/-! Facts about Python-style `max`/`min` over nonempty lists. -/

theorem foldl_max_init_le (l : List ℕ) (a : ℕ) : a ≤ l.foldl max a := by
  induction l generalizing a with
  | nil => exact le_refl a
  | cons x xs ih => exact le_trans (le_max_left a x) (ih (max a x))

theorem le_foldl_max (l : List ℕ) : ∀ a x : ℕ, x ∈ l → x ≤ l.foldl max a := by
  induction l with
  | nil => intro a x hx; cases hx
  | cons y ys ih =>
      intro a x hx
      rcases List.mem_cons.mp hx with rfl | h
      · exact le_trans (le_max_right a x) (foldl_max_init_le ys (max a x))
      · exact ih (max a y) x h

theorem foldl_max_mem (l : List ℕ) (a : ℕ) : l.foldl max a = a ∨ l.foldl max a ∈ l := by
  induction l generalizing a with
  | nil => exact Or.inl rfl
  | cons x xs ih =>
      rcases ih (max a x) with h | h
      · rcases max_choice a x with hm | hm
        · exact Or.inl (by rw [List.foldl_cons, h, hm])
        · exact Or.inr (by rw [List.foldl_cons, h, hm]; exact List.mem_cons_self x xs)
      · exact Or.inr (List.mem_cons_of_mem x h)

theorem le_foldl_min (l : List ℕ) (a : ℕ) : l.foldl min a ≤ a := by
  induction l generalizing a with
  | nil => exact le_refl a
  | cons x xs ih => exact le_trans (ih (min a x)) (min_le_left a x)

theorem foldl_min_le (l : List ℕ) : ∀ a x : ℕ, x ∈ l → l.foldl min a ≤ x := by
  induction l with
  | nil => intro a x hx; cases hx
  | cons y ys ih =>
      intro a x hx
      rcases List.mem_cons.mp hx with rfl | h
      · exact le_trans (le_foldl_min ys (min a x)) (min_le_right a x)
      · exact ih (min a y) x h

theorem foldl_min_mem (l : List ℕ) (a : ℕ) : l.foldl min a = a ∨ l.foldl min a ∈ l := by
  induction l generalizing a with
  | nil => exact Or.inl rfl
  | cons x xs ih =>
      rcases ih (min a x) with h | h
      · rcases min_choice a x with hm | hm
        · exact Or.inl (by rw [List.foldl_cons, h, hm])
        · exact Or.inr (by rw [List.foldl_cons, h, hm]; exact List.mem_cons_self x xs)
      · exact Or.inr (List.mem_cons_of_mem x h)

theorem le_listMax (l : List ℕ) (x : ℕ) (hx : x ∈ l) : x ≤ listMax l := by
  match l with
  | [] => cases hx
  | y :: ys =>
      rcases List.mem_cons.mp hx with rfl | h
      · exact foldl_max_init_le ys x
      · exact le_foldl_max ys y x h

theorem listMin_le (l : List ℕ) (x : ℕ) (hx : x ∈ l) : listMin l ≤ x := by
  match l with
  | [] => cases hx
  | y :: ys =>
      rcases List.mem_cons.mp hx with rfl | h
      · exact le_foldl_min ys x
      · exact foldl_min_le ys y x h

theorem listMax_mem (l : List ℕ) (hl : l ≠ []) : listMax l ∈ l := by
  match l with
  | [] => exact absurd rfl hl
  | y :: ys =>
      show ys.foldl max y ∈ y :: ys
      rcases foldl_max_mem ys y with h | h
      · rw [h]; exact List.mem_cons_self y ys
      · exact List.mem_cons_of_mem y h

theorem listMin_mem (l : List ℕ) (hl : l ≠ []) : listMin l ∈ l := by
  match l with
  | [] => exact absurd rfl hl
  | y :: ys =>
      show ys.foldl min y ∈ y :: ys
      rcases foldl_min_mem ys y with h | h
      · rw [h]; exact List.mem_cons_self y ys
      · exact List.mem_cons_of_mem y h

/-- C7: `generate_heat_map_data` returns a grid of exactly 10 rows of 10
cells each, all cells non-negative, and the reported `max_value` and
`min_value` are respectively an upper/lower bound of all 100 cells and are
attained by some cell. -/
theorem heat_map_shape_max_min (pos : String) (g : Rng) :
    (generate_heat_map_data pos g).grid.length = 10 ∧
    (∀ row ∈ (generate_heat_map_data pos g).grid, row.length = 10) ∧
    (∀ row ∈ (generate_heat_map_data pos g).grid, ∀ c ∈ row,
      0 ≤ c ∧ (generate_heat_map_data pos g).min_value ≤ c ∧
      c ≤ (generate_heat_map_data pos g).max_value) ∧
    (∃ row ∈ (generate_heat_map_data pos g).grid,
      (generate_heat_map_data pos g).max_value ∈ row) ∧
    (∃ row ∈ (generate_heat_map_data pos g).grid,
      (generate_heat_map_data pos g).min_value ∈ row) := by
  have hgrid : (generate_heat_map_data pos g).grid =
      (List.range 10).map (fun i => (List.range 10).map (fun j => heatCell pos g i j)) := rfl
  have hmax : (generate_heat_map_data pos g).max_value =
      listMax ((generate_heat_map_data pos g).grid.map listMax) := rfl
  have hmin : (generate_heat_map_data pos g).min_value =
      listMin ((generate_heat_map_data pos g).grid.map listMin) := rfl
  have hne : (generate_heat_map_data pos g).grid ≠ [] := by
    rw [hgrid]; simp
  have hrowlen : ∀ row ∈ (generate_heat_map_data pos g).grid, row.length = 10 := by
    rw [hgrid]
    intro row hr
    obtain ⟨i, _, rfl⟩ := mem_range_map _ _ _ hr
    simp
  have hrowne : ∀ row ∈ (generate_heat_map_data pos g).grid, row ≠ [] := by
    intro row hr
    have := hrowlen row hr
    intro hnil
    rw [hnil] at this
    simp at this
  refine ⟨by rw [hgrid]; simp, hrowlen, ?_, ?_, ?_⟩
  · intro row hr c hc
    refine ⟨Nat.zero_le c, ?_, ?_⟩
    · rw [hmin]
      exact le_trans
        (listMin_le _ _ (List.mem_map_of_mem listMin hr)) (listMin_le row c hc)
    · rw [hmax]
      exact le_trans (le_listMax row c hc)
        (le_listMax _ _ (List.mem_map_of_mem listMax hr))
  · rw [hmax]
    have h1 : listMax ((generate_heat_map_data pos g).grid.map listMax) ∈
        (generate_heat_map_data pos g).grid.map listMax :=
      listMax_mem _ (fun h => hne (List.map_eq_nil_iff.mp h))
    rw [List.mem_map] at h1
    obtain ⟨row, hr, heq⟩ := h1
    exact ⟨row, hr, heq ▸ listMax_mem row (hrowne row hr)⟩
  · rw [hmin]
    have h1 : listMin ((generate_heat_map_data pos g).grid.map listMin) ∈
        (generate_heat_map_data pos g).grid.map listMin :=
      listMin_mem _ (fun h => hne (List.map_eq_nil_iff.mp h))
    rw [List.mem_map] at h1
    obtain ⟨row, hr, heq⟩ := h1
    exact ⟨row, hr, heq ▸ listMin_mem row (hrowne row hr)⟩

/-- C7 witness: the theorem instantiated at `"Forward"` and the all-zero
random source; the membership hypotheses are discharged on the first row
and cell. -/
theorem heat_map_shape_max_min_witness :
    (generate_heat_map_data "Forward" rng0).grid.length = 10 ∧
    ((generate_heat_map_data "Forward" rng0).grid.getD 0 []).length = 10 ∧
    (generate_heat_map_data "Forward" rng0).min_value ≤
      ((generate_heat_map_data "Forward" rng0).grid.getD 0 []).getD 0 0 :=
  ⟨(heat_map_shape_max_min "Forward" rng0).1,
    (heat_map_shape_max_min "Forward" rng0).2.1
      ((generate_heat_map_data "Forward" rng0).grid.getD 0 []) (by decide),
    ((heat_map_shape_max_min "Forward" rng0).2.2.1
      ((generate_heat_map_data "Forward" rng0).grid.getD 0 []) (by decide)
      (((generate_heat_map_data "Forward" rng0).grid.getD 0 []).getD 0 0) (by decide)).2.1⟩

/-- The cell at row `i`, column `j` of the generated grid is `heatCell`. -/
theorem heat_grid_getD (pos : String) (g : Rng) (i j : ℕ) (hi : i < 10) (hj : j < 10) :
    (((generate_heat_map_data pos g).grid.getD i []).getD j 0) = heatCell pos g i j := by
  have hgrid : (generate_heat_map_data pos g).grid =
      (List.range 10).map (fun i => (List.range 10).map (fun j => heatCell pos g i j)) := rfl
  rw [hgrid, range_map_getD _ 10 i ([] : List ℕ) hi]
  exact range_map_getD _ 10 j 0 hj

/-- C8: every cell of the heat-map grid is drawn from the zone range of the
matched profile: goalkeeper-class labels use `[20, 80]` for columns `< 3`
and `[0, 10]` otherwise; `"Defender"` uses `[30, 90]` for columns `< 5` and
`[5, 40]` otherwise; `"Midfielder"` uses `[40, 100]` for columns in
`[2, 7]` and `[10, 50]` otherwise; `"Forward"` and `"Striker"` use
`[50, 100]` for columns `≥ 5` and `[10, 60]` otherwise; every other label
uses `[10, 80]` everywhere. -/
theorem heat_map_zone_ranges (pos : String) (g : Rng) (i j : ℕ) (hi : i < 10) (hj : j < 10) :
    (pos ∈ gkLabels →
      (j < 3 → 20 ≤ ((generate_heat_map_data pos g).grid.getD i []).getD j 0 ∧
        ((generate_heat_map_data pos g).grid.getD i []).getD j 0 ≤ 80) ∧
      (¬ j < 3 → ((generate_heat_map_data pos g).grid.getD i []).getD j 0 ≤ 10)) ∧
    (pos = "Defender" →
      (j < 5 → 30 ≤ ((generate_heat_map_data pos g).grid.getD i []).getD j 0 ∧
        ((generate_heat_map_data pos g).grid.getD i []).getD j 0 ≤ 90) ∧
      (¬ j < 5 → 5 ≤ ((generate_heat_map_data pos g).grid.getD i []).getD j 0 ∧
        ((generate_heat_map_data pos g).grid.getD i []).getD j 0 ≤ 40)) ∧
    (pos = "Midfielder" →
      (2 ≤ j ∧ j ≤ 7 → 40 ≤ ((generate_heat_map_data pos g).grid.getD i []).getD j 0 ∧
        ((generate_heat_map_data pos g).grid.getD i []).getD j 0 ≤ 100) ∧
      (¬ (2 ≤ j ∧ j ≤ 7) → 10 ≤ ((generate_heat_map_data pos g).grid.getD i []).getD j 0 ∧
        ((generate_heat_map_data pos g).grid.getD i []).getD j 0 ≤ 50)) ∧
    (pos = "Forward" ∨ pos = "Striker" →
      (5 ≤ j → 50 ≤ ((generate_heat_map_data pos g).grid.getD i []).getD j 0 ∧
        ((generate_heat_map_data pos g).grid.getD i []).getD j 0 ≤ 100) ∧
      (¬ 5 ≤ j → 10 ≤ ((generate_heat_map_data pos g).grid.getD i []).getD j 0 ∧
        ((generate_heat_map_data pos g).grid.getD i []).getD j 0 ≤ 60)) ∧
    (pos ∉ gkLabels → pos ≠ "Defender" → pos ≠ "Midfielder" → pos ≠ "Forward" →
      pos ≠ "Striker" →
      10 ≤ ((generate_heat_map_data pos g).grid.getD i []).getD j 0 ∧
      ((generate_heat_map_data pos g).grid.getD i []).getD j 0 ≤ 80) := by
  rw [heat_grid_getD pos g i j hi hj]
  refine ⟨?_, ?_, ?_, ?_, ?_⟩
  · intro h
    simp only [heatCell, if_pos h]
    constructor
    · intro hj3
      rw [if_pos hj3]
      exact ⟨le_randint _ _ _, randint_le _ _ _ (by norm_num)⟩
    · intro hj3
      rw [if_neg hj3]
      exact randint_le _ _ _ (by norm_num)
  · rintro rfl
    simp only [heatCell]
    rw [if_neg (by decide), if_pos (by decide)]
    constructor
    · intro hj5
      rw [if_pos hj5]
      exact ⟨le_randint _ _ _, randint_le _ _ _ (by norm_num)⟩
    · intro hj5
      rw [if_neg hj5]
      exact ⟨le_randint _ _ _, randint_le _ _ _ (by norm_num)⟩
  · rintro rfl
    simp only [heatCell]
    rw [if_neg (by decide), if_neg (by decide), if_pos (by decide)]
    constructor
    · intro hj27
      rw [if_pos hj27]
      exact ⟨le_randint _ _ _, randint_le _ _ _ (by norm_num)⟩
    · intro hj27
      rw [if_neg hj27]
      exact ⟨le_randint _ _ _, randint_le _ _ _ (by norm_num)⟩
  · intro h
    have e : heatCell pos g i j =
        if 5 ≤ j then randint 50 100 (g.ints (10 * i + j))
        else randint 10 60 (g.ints (10 * i + j)) := by
      rcases h with rfl | rfl <;>
        · simp only [heatCell]
          rw [if_neg (by decide), if_neg (by decide), if_neg (by decide),
            if_pos (by decide)]
    rw [e]
    constructor
    · intro hj5
      rw [if_pos hj5]
      exact ⟨le_randint _ _ _, randint_le _ _ _ (by norm_num)⟩
    · intro hj5
      rw [if_neg hj5]
      exact ⟨le_randint _ _ _, randint_le _ _ _ (by norm_num)⟩
  · intro h1 h2 h3 h4 h5
    have hd : pos ∉ ["Defender"] := by
      intro h
      rcases List.mem_singleton.mp h with rfl
      exact h2 rfl
    have hm : pos ∉ ["Midfielder"] := by
      intro h
      rcases List.mem_singleton.mp h with rfl
      exact h3 rfl
    have hf : pos ∉ ["Forward", "Striker"] := by
      intro h
      rcases List.mem_cons.mp h with rfl | h
      · exact h4 rfl
      · rcases List.mem_singleton.mp h with rfl
        exact h5 rfl
    simp only [heatCell]
    rw [if_neg h1, if_neg hd, if_neg hm, if_neg hf]
    exact ⟨le_randint _ _ _, randint_le _ _ _ (by norm_num)⟩

/-- C8 witness: the theorem instantiated at `"Forward"`, the all-zero
random source and cell `(0, 9)` (inside the attacking zone). -/
theorem heat_map_zone_ranges_witness :
    ("Forward" = "Forward" ∨ "Forward" = "Striker") ∧
    50 ≤ ((generate_heat_map_data "Forward" rng0).grid.getD 0 []).getD 9 0 :=
  ⟨Or.inl rfl,
    (((heat_map_zone_ranges "Forward" rng0 0 9 (by norm_num) (by norm_num)).2.2.2.1
      (Or.inl rfl)).1 (by norm_num)).1⟩

/-! Facts about the memo cache. -/

/-- `get_or_create` never removes or changes an existing entry. -/
theorem get_or_create_preserves (db : Cache) (q : ℕ) (r : StatisticsRecord)
    (h : db q = some r) (pid : ℕ) (pos : String) (g : Rng) :
    (get_or_create db pid pos g).2 q = some r := by
  unfold get_or_create
  cases hdb : db pid with
  | some r' => exact h
  | none =>
      by_cases hq : q = pid
      · rw [hq] at h
        rw [h] at hdb
        cases hdb
      · simp only [if_neg hq]
        exact h

/-- Any sequence of later requests preserves every existing entry. -/
theorem runRequests_preserves (ops : List (ℕ × String × Rng)) :
    ∀ (db : Cache) (q : ℕ) (r : StatisticsRecord), db q = some r →
      runRequests db ops q = some r := by
  induction ops with
  | nil => intro db q r h; exact h
  | cons op rest ih =>
      intro db q r h
      obtain ⟨pid, pos, g⟩ := op
      exact ih _ q r (get_or_create_preserves db q r h pid pos g)

/-- After `get_or_create`, the cache holds the returned record under the
requested player id. -/
theorem get_or_create_stored (db : Cache) (pid : ℕ) (pos : String) (g : Rng) :
    (get_or_create db pid pos g).2 pid = some (get_or_create db pid pos g).1 := by
  unfold get_or_create
  cases hdb : db pid with
  | some r' => exact hdb
  | none => simp

/-- A hit returns the stored record and leaves the cache untouched. -/
theorem get_or_create_of_some (db : Cache) (pid : ℕ) (pos : String) (g : Rng)
    (r : StatisticsRecord) (h : db pid = some r) :
    get_or_create db pid pos g = (r, db) := by
  unfold get_or_create
  rw [h]

/-- C3: the memo cache get-or-create operation, under sequential calls,
synthesizes and stores a record on the first request for a player id,
returns the stored record and leaves the cache untouched on a hit, never
evicts or overwrites an existing entry, leaves other player ids untouched,
and any later request for the same player id — after an arbitrary sequence
of intervening requests — returns the identical stored record. -/
theorem memo_cache_get_or_create (db : Cache) (pid : ℕ) (pos : String) (g : Rng) :
    (db pid = none →
      (get_or_create db pid pos g).1 = generate_mock_player_stats pos g ∧
      (get_or_create db pid pos g).2 pid = some (get_or_create db pid pos g).1) ∧
    (∀ r0, db pid = some r0 →
      (get_or_create db pid pos g).1 = r0 ∧ (get_or_create db pid pos g).2 = db) ∧
    (∀ q, q ≠ pid → (get_or_create db pid pos g).2 q = db q) ∧
    (∀ q r0, db q = some r0 → (get_or_create db pid pos g).2 q = some r0) ∧
    (∀ (ops : List (ℕ × String × Rng)) (pos2 : String) (g2 : Rng),
      runRequests (get_or_create db pid pos g).2 ops pid =
        some (get_or_create db pid pos g).1 ∧
      (get_or_create (runRequests (get_or_create db pid pos g).2 ops) pid pos2 g2).1 =
        (get_or_create db pid pos g).1) := by
  refine ⟨?_, ?_, ?_, ?_, ?_⟩
  · intro h
    constructor
    · unfold get_or_create
      rw [h]
    · exact get_or_create_stored db pid pos g
  · intro r0 h
    rw [get_or_create_of_some db pid pos g r0 h]
    exact ⟨rfl, rfl⟩
  · intro q hq
    unfold get_or_create
    cases hdb : db pid with
    | some r' => rfl
    | none => simp only [if_neg hq]
  · intro q r0 h
    exact get_or_create_preserves db q r0 h pid pos g
  · intro ops pos2 g2
    have hstable : runRequests (get_or_create db pid pos g).2 ops pid =
        some (get_or_create db pid pos g).1 :=
      runRequests_preserves ops _ pid _ (get_or_create_stored db pid pos g)
    refine ⟨hstable, ?_⟩
    rw [get_or_create_of_some _ pid pos2 g2 _ hstable]

/-- C3 witness: the theorem instantiated on the empty cache at player id 7
with position `"Forward"`, the all-zero random source and no intervening
requests: the stored and re-served record is the one synthesized on the
first request. -/
theorem memo_cache_get_or_create_witness :
    ((fun _ => none : Cache) 7 = none) ∧
    (get_or_create (fun _ => none) 7 "Forward" rng0).1 =
      generate_mock_player_stats "Forward" rng0 ∧
    runRequests (get_or_create (fun _ => none) 7 "Forward" rng0).2 [] 7 =
      some (get_or_create (fun _ => none) 7 "Forward" rng0).1 :=
  ⟨rfl,
    ((memo_cache_get_or_create (fun _ => none) 7 "Forward" rng0).1 rfl).1,
    ((memo_cache_get_or_create (fun _ => none) 7 "Forward" rng0).2.2.2.2 [] "" rng0).1⟩
